import Mathlib

/-!
Shallow embedding of the vocaibulary quiz application core, translated from
`src/utils/apiErrorHandler.js`, `src/services/aiService.ts`, `src/App.tsx`,
`src/components/GameInterface.tsx` (the `useGameState` hook) and
`src/data/oxford3000`.  Machine integers are modelled as `Nat`/`Int`,
JavaScript exceptions as `Except`, and `Math.random()` draws as explicit
streams of natural numbers (one entry per call, used modulo the range size).
-/

/-! ## Error taxonomy (`src/utils/apiErrorHandler.js`, `ErrorTypes`) -/

inductive ErrorTypes where
  | NETWORK
  | AUTHENTICATION
  | RATE_LIMIT
  | QUOTA_EXCEEDED
  | VALIDATION
  | SERVER
  | TIMEOUT
  | UNKNOWN
deriving DecidableEq, Repr

/-- The structured `APIError` class: we keep the `message`, `type` and
`statusCode` fields (the `originalError` and `timestamp` fields play no role
in any claim). -/
structure APIError where
  message : String
  type : ErrorTypes
  statusCode : Option Nat
deriving DecidableEq, Repr

/-- A value thrown by JavaScript code: either an `APIError` instance or a
plain `Error` carrying only a message (`instanceof APIError` is false). -/
inductive ThrownError where
  | api (e : APIError)
  | plain (message : String)
deriving DecidableEq, Repr

/-- A raw error object as inspected by the two error handlers: its `name`,
the optional `error.response.status`, whether `error.request` is set, and the
optional server-provided message extracted from `error.response.data`. -/
structure JSRequestError where
  name : String
  responseStatus : Option Nat
  hasRequest : Bool
  dataMessage : Option String
deriving DecidableEq, Repr

/-- `classifyHttpError` from `apiErrorHandler.js`. -/
def classifyHttpError (statusCode : Nat) : ErrorTypes :=
  if 400 ≤ statusCode ∧ statusCode < 500 then
    if statusCode = 401 ∨ statusCode = 403 then ErrorTypes.AUTHENTICATION
    else if statusCode = 429 then ErrorTypes.RATE_LIMIT
    else if statusCode = 422 then ErrorTypes.VALIDATION
    else ErrorTypes.VALIDATION
  else if 500 ≤ statusCode then ErrorTypes.SERVER
  else ErrorTypes.UNKNOWN

/-- `handleOpenAIError` from `apiErrorHandler.js`. -/
def handleOpenAIError (error : JSRequestError) : APIError :=
  if error.name = "AbortError" then
    ⟨"Request timed out. Please try again.", ErrorTypes.TIMEOUT, none⟩
  else
    match error.responseStatus with
    | some status =>
      if status = 401 then
        ⟨"Invalid OpenAI API key. Please check your configuration.",
          ErrorTypes.AUTHENTICATION, some status⟩
      else if status = 429 then
        ⟨"OpenAI rate limit exceeded. Please try again later.",
          ErrorTypes.RATE_LIMIT, some status⟩
      else
        ⟨error.dataMessage.getD "OpenAI API error occurred",
          classifyHttpError status, some status⟩
    | none =>
      if error.hasRequest then
        ⟨"Network error. Please check your internet connection.",
          ErrorTypes.NETWORK, none⟩
      else
        ⟨"An unexpected error occurred", ErrorTypes.UNKNOWN, none⟩

/-- `handleElevenLabsError` from `apiErrorHandler.js`. -/
def handleElevenLabsError (error : JSRequestError) : APIError :=
  if error.name = "AbortError" then
    ⟨"Speech synthesis timed out. Please try again.", ErrorTypes.TIMEOUT, none⟩
  else
    match error.responseStatus with
    | some status =>
      if status = 401 then
        ⟨"Invalid ElevenLabs API key. Please check your configuration.",
          ErrorTypes.AUTHENTICATION, some status⟩
      else if status = 429 then
        ⟨"ElevenLabs rate limit exceeded. Please try again later.",
          ErrorTypes.RATE_LIMIT, some status⟩
      else if status = 402 then
        ⟨"Character quota exceeded. Please upgrade your ElevenLabs plan.",
          ErrorTypes.QUOTA_EXCEEDED, some status⟩
      else
        ⟨error.dataMessage.getD "ElevenLabs API error occurred",
          classifyHttpError status, some status⟩
    | none =>
      if error.hasRequest then
        ⟨"Network error. Please check your internet connection.",
          ErrorTypes.NETWORK, none⟩
      else
        ⟨"An unexpected error occurred during speech synthesis",
          ErrorTypes.UNKNOWN, none⟩

/-! ## Retry with exponential backoff (`retryWithBackoff`) -/

/-- The guard `error instanceof APIError && (error.type === AUTHENTICATION ||
error.type === VALIDATION)` inside the `catch` of `retryWithBackoff`. -/
def isNonRetryable : ThrownError → Bool
  | ThrownError.api e =>
      e.type = ErrorTypes.AUTHENTICATION ∨ e.type = ErrorTypes.VALIDATION
  | ThrownError.plain _ => false

/-- One pass of the `for (let attempt = 1; attempt <= maxAttempts; ...)` loop
of `retryWithBackoff`.  `op k` is the outcome of the k-th invocation
(1-indexed); `remaining` counts the attempts still allowed.  The result
carries the propagated value or error, the number of invocations performed,
and the total backoff delay awaited. -/
def retryAux (op : Nat → Except ThrownError α) (baseDelay : Nat)
    (lastError : Option ThrownError) (attempt : Nat) :
    Nat → Except ThrownError α × Nat × Nat
  | 0 => (Except.error (lastError.getD (ThrownError.plain "undefined")), 0, 0)
  | remaining + 1 =>
    match op attempt with
    | Except.ok v => (Except.ok v, 1, 0)
    | Except.error e =>
      if isNonRetryable e then
        (Except.error e, 1, 0)
      else if remaining = 0 then
        (Except.error e, 1, 0)
      else
        let delay := baseDelay * 2 ^ (attempt - 1)
        let rest := retryAux op baseDelay (some e) (attempt + 1) remaining
        (rest.1, rest.2.1 + 1, rest.2.2 + delay)

/-- `retryWithBackoff(fn, maxAttempts, baseDelay)` from `apiErrorHandler.js`,
with the defaults `maxAttempts = 3`, `baseDelay = 1000` supplied by callers
through `openAIConfig.rateLimits`. -/
def retryWithBackoff (op : Nat → Except ThrownError α)
    (maxAttempts : Nat) (baseDelay : Nat) :
    Except ThrownError α × Nat × Nat :=
  retryAux op baseDelay none 1 maxAttempts

/-! ## RateLimiter (`src/utils/apiErrorHandler.js`) -/

/-- The `RateLimiter` class state: the configured ceiling and the stored
timestamp array.  Timestamps are `Int` milliseconds (`Date.now()`). -/
structure RateLimiter where
  requestsPerMinute : Nat
  requests : List Int
deriving DecidableEq, Repr

/-- `canMakeRequest()`: prunes timestamps older than one minute (this
reassigns `this.requests`!) and compares the remaining count against the
ceiling.  Returns the boolean together with the mutated state. -/
def RateLimiter.canMakeRequest (rl : RateLimiter) (now : Int) :
    Bool × RateLimiter :=
  let pruned := rl.requests.filter (fun t => t > now - 60000)
  (pruned.length < rl.requestsPerMinute, { rl with requests := pruned })

/-- `recordRequest()`: pushes the current timestamp. -/
def RateLimiter.recordRequest (rl : RateLimiter) (now : Int) : RateLimiter :=
  { rl with requests := rl.requests ++ [now] }

/-- `getTimeUntilNextRequest()`: zero when admissible, otherwise the time
until the oldest stored (post-pruning) timestamp leaves the window.
`Math.min()` of an empty array is `Infinity`, modelled as `none`. -/
def RateLimiter.getTimeUntilNextRequest (rl : RateLimiter) (now : Int) :
    Option Int × RateLimiter :=
  let res := rl.canMakeRequest now
  if res.1 then (some 0, res.2)
  else
    match res.2.requests.min? with
    | some oldest => (some (max 0 (oldest + 60000 - now)), res.2)
    | none => (none, res.2)

/-! ## Vocabulary store (`src/data/oxford3000`) -/

/-- CEFR levels of `Word.level`. -/
inductive Level where
  | A1
  | A2
  | B1
  | B2
deriving DecidableEq, Repr

/-- The level argument accepted by the services: a concrete level or `ALL`. -/
inductive LevelSel where
  | level (l : Level)
  | ALL
deriving DecidableEq, Repr

/-- The `Word` interface of `aiService.ts` / `oxford3000.ts`. -/
structure Word where
  word : String
  level : Level
  definition : String
  exampleSentence : String
  partOfSpeech : String
deriving DecidableEq, Repr

set_option maxHeartbeats 1600000 in
/-- The `oxford3000Words` array, transcribed verbatim from the source
(apostrophes written as the escape `\x27`). -/
def oxford3000Words : List Word := [
  ⟨"about", Level.A1, "on the subject of; concerning", "Tell me about your day.", "preposition"⟩,
  ⟨"above", Level.A1, "in or to a higher position than something else", "The plane flew above the clouds.", "preposition"⟩,
  ⟨"across", Level.A1, "from one side to the other of something", "We walked across the bridge.", "preposition"⟩,
  ⟨"after", Level.A1, "following in time; later than", "We\x27ll meet after lunch.", "preposition"⟩,
  ⟨"again", Level.A1, "once more; another time", "Please say that again.", "adverb"⟩,
  ⟨"against", Level.A1, "in opposition to", "He leaned against the wall.", "preposition"⟩,
  ⟨"all", Level.A1, "the whole quantity or extent of", "All students must attend.", "determiner"⟩,
  ⟨"almost", Level.A1, "not quite; very nearly", "I\x27m almost finished.", "adverb"⟩,
  ⟨"alone", Level.A1, "having no one else present", "She lives alone.", "adjective"⟩,
  ⟨"along", Level.A1, "in company with or at the same time as", "Come along with us.", "preposition"⟩,
  ⟨"already", Level.A1, "before or by now or the time in question", "I\x27ve already eaten.", "adverb"⟩,
  ⟨"also", Level.A1, "in addition; too", "She\x27s also coming to the party.", "adverb"⟩,
  ⟨"although", Level.A1, "in spite of the fact that", "Although it was raining, we went out.", "conjunction"⟩,
  ⟨"always", Level.A1, "at all times; on all occasions", "She always arrives early.", "adverb"⟩,
  ⟨"among", Level.A1, "situated more or less centrally in relation to several other things", "He was among friends.", "preposition"⟩,
  ⟨"and", Level.A1, "used to connect words of the same part of speech", "Bread and butter.", "conjunction"⟩,
  ⟨"another", Level.A1, "used to refer to an additional person or thing", "Would you like another cup of tea?", "determiner"⟩,
  ⟨"answer", Level.A1, "a thing said, written, or done to deal with or as a reaction to a question", "What\x27s your answer to the question?", "noun"⟩,
  ⟨"any", Level.A1, "used to refer to one or some of a thing", "Do you have any questions?", "determiner"⟩,
  ⟨"anyone", Level.A1, "any person or people", "Anyone can learn to swim.", "pronoun"⟩,
  ⟨"accept", Level.A2, "consent to receive or undertake something offered", "I accept your invitation.", "verb"⟩,
  ⟨"accident", Level.A2, "an unfortunate incident that happens unexpectedly", "There was a car accident on the highway.", "noun"⟩,
  ⟨"according", Level.A2, "as stated by or in", "According to the weather forecast, it will rain.", "preposition"⟩,
  ⟨"account", Level.A2, "a report or description of an event", "Give me an account of what happened.", "noun"⟩,
  ⟨"achieve", Level.A2, "successfully bring about or reach a desired objective", "She worked hard to achieve her goals.", "verb"⟩,
  ⟨"activity", Level.A2, "a thing that a person or group does or has done", "Swimming is my favorite activity.", "noun"⟩,
  ⟨"actually", Level.A2, "as the truth or facts of a situation; really", "I actually enjoyed the movie.", "adverb"⟩,
  ⟨"address", Level.A2, "the particulars of the place where someone lives", "What\x27s your home address?", "noun"⟩,
  ⟨"admit", Level.A2, "confess to be true or to be the case", "I admit I was wrong.", "verb"⟩,
  ⟨"adult", Level.A2, "a person who is fully grown or developed", "Children must be accompanied by an adult.", "noun"⟩,
  ⟨"advance", Level.A2, "move forward in a purposeful way", "The army began to advance.", "verb"⟩,
  ⟨"advantage", Level.A2, "a condition or circumstance that puts one in a favorable position", "Being tall is an advantage in basketball.", "noun"⟩,
  ⟨"adventure", Level.A2, "an unusual and exciting experience or activity", "Their trip to the Amazon was quite an adventure.", "noun"⟩,
  ⟨"advertise", Level.A2, "describe or draw attention to a product or service", "They advertise their products on television.", "verb"⟩,
  ⟨"advice", Level.A2, "guidance or recommendations offered with regard to prudent action", "Can you give me some advice?", "noun"⟩,
  ⟨"affect", Level.A2, "have an effect on; make a difference to", "The rain will affect our picnic plans.", "verb"⟩,
  ⟨"afford", Level.A2, "have enough money to pay for", "I can\x27t afford a new car right now.", "verb"⟩,
  ⟨"afraid", Level.A2, "feeling fear or anxiety; frightened", "She\x27s afraid of spiders.", "adjective"⟩,
  ⟨"agree", Level.A2, "have the same opinion about something", "I agree with your decision.", "verb"⟩,
  ⟨"ahead", Level.A2, "further forward in space; in the lead", "Go ahead, I\x27ll catch up later.", "adverb"⟩,
  ⟨"ability", Level.B1, "possession of the means or skill to do something", "She has the ability to solve complex problems.", "noun"⟩,
  ⟨"absolutely", Level.B1, "with no qualification, restriction, or limitation; totally", "You\x27re absolutely right about that.", "adverb"⟩,
  ⟨"academic", Level.B1, "relating to education and scholarship", "He has strong academic credentials.", "adjective"⟩,
  ⟨"accompany", Level.B1, "go somewhere with someone as a companion", "I\x27ll accompany you to the meeting.", "verb"⟩,
  ⟨"accurate", Level.B1, "correct in all details; exact", "Please provide accurate information.", "adjective"⟩,
  ⟨"acquire", Level.B1, "buy or obtain an asset or object for oneself", "The company plans to acquire new technology.", "verb"⟩,
  ⟨"adapt", Level.B1, "become adjusted to new conditions", "Animals must adapt to survive.", "verb"⟩,
  ⟨"adequate", Level.B1, "satisfactory or acceptable in quality or quantity", "The salary is adequate for my needs.", "adjective"⟩,
  ⟨"administration", Level.B1, "the process or activity of running a business or organization", "She works in hospital administration.", "noun"⟩,
  ⟨"adopt", Level.B1, "choose to take up, follow, or use", "The company will adopt new policies.", "verb"⟩,
  ⟨"agriculture", Level.B1, "the science or practice of farming", "Agriculture is important for food production.", "noun"⟩,
  ⟨"aircraft", Level.B1, "an airplane, helicopter, or other machine capable of flight", "The aircraft landed safely.", "noun"⟩,
  ⟨"alternative", Level.B1, "available as another possibility or choice", "We need an alternative solution.", "adjective"⟩,
  ⟨"amazing", Level.B1, "causing great surprise or wonder; astonishing", "The view from the mountain was amazing.", "adjective"⟩,
  ⟨"analysis", Level.B1, "detailed examination of the elements or structure of something", "The analysis revealed interesting patterns.", "noun"⟩,
  ⟨"ancient", Level.B1, "belonging to the very distant past", "They visited ancient ruins in Greece.", "adjective"⟩,
  ⟨"annual", Level.B1, "occurring once every year", "The company holds an annual meeting.", "adjective"⟩,
  ⟨"anxiety", Level.B1, "a feeling of worry, nervousness, or unease", "She felt anxiety before the exam.", "noun"⟩,
  ⟨"apparent", Level.B1, "clearly visible or understood; obvious", "It was apparent that he was tired.", "adjective"⟩,
  ⟨"appeal", Level.B1, "make a serious or urgent request", "They appeal for donations to help the victims.", "verb"⟩,
  ⟨"abandon", Level.B2, "cease to support or look after someone; desert", "They had to abandon their home due to flooding.", "verb"⟩,
  ⟨"abstract", Level.B2, "existing in thought or as an idea but not having a physical existence", "Love is an abstract concept.", "adjective"⟩,
  ⟨"accelerate", Level.B2, "begin to move more quickly", "The car began to accelerate down the highway.", "verb"⟩,
  ⟨"accommodate", Level.B2, "provide lodging or sufficient space for", "The hotel can accommodate 200 guests.", "verb"⟩,
  ⟨"accumulate", Level.B2, "gather together or acquire an increasing number or quantity of", "Snow began to accumulate on the ground.", "verb"⟩,
  ⟨"acknowledge", Level.B2, "accept or admit the existence or truth of", "He acknowledged his mistake.", "verb"⟩,
  ⟨"advocate", Level.B2, "publicly recommend or support", "She advocates for environmental protection.", "verb"⟩,
  ⟨"aesthetic", Level.B2, "concerned with beauty or the appreciation of beauty", "The building has great aesthetic appeal.", "adjective"⟩,
  ⟨"allocate", Level.B2, "distribute resources or duties for a particular purpose", "We need to allocate more funds to education.", "verb"⟩,
  ⟨"ambiguous", Level.B2, "open to more than one interpretation; not having one obvious meaning", "His answer was ambiguous and confusing.", "adjective"⟩,
  ⟨"anticipate", Level.B2, "regard as probable; expect or predict", "We anticipate a successful outcome.", "verb"⟩,
  ⟨"arbitrary", Level.B2, "based on random choice or personal whim", "The decision seemed arbitrary and unfair.", "adjective"⟩,
  ⟨"articulate", Level.B2, "having or showing the ability to speak fluently and coherently", "She\x27s very articulate in her presentations.", "adjective"⟩,
  ⟨"assess", Level.B2, "evaluate or estimate the nature, ability, or quality of", "Teachers assess students\x27 progress regularly.", "verb"⟩,
  ⟨"attribute", Level.B2, "regard something as being caused by", "She attributes her success to hard work.", "verb"⟩,
  ⟨"authentic", Level.B2, "of undisputed origin; genuine", "This is an authentic Italian restaurant.", "adjective"⟩,
  ⟨"autonomous", Level.B2, "having the freedom to act independently", "The region has autonomous status.", "adjective"⟩,
  ⟨"bias", Level.B2, "prejudice in favor of or against one thing", "The judge showed bias in his decision.", "noun"⟩,
  ⟨"coherent", Level.B2, "logical and consistent", "Please give a coherent explanation.", "adjective"⟩,
  ⟨"comprehensive", Level.B2, "complete and including everything that is necessary", "We need a comprehensive plan.", "adjective"⟩]

/-- `getWordsByLevel` from `oxford3000.ts`. -/
def getWordsByLevel (level : Level) : List Word :=
  oxford3000Words.filter (fun w => w.level = level)

/-- `getRandomWord` from `oxford3000.ts`: `words[Math.floor(Math.random() *
words.length)]`.  The random draw is modelled by the index `r`; JavaScript
indexing out of bounds yields `undefined`, modelled as `none`. -/
def getRandomWord (level : Option Level) (r : Nat) : Option Word :=
  let words := match level with
    | some l => getWordsByLevel l
    | none => oxford3000Words
  words.get? r

/-! ## String operations (JS `toLowerCase` / `trim`) -/

/-- Whitespace recognised by `trim` (the inputs in play use only ASCII
whitespace). -/
def jsIsWS (c : Char) : Bool :=
  decide (c.toNat = 32 ∨ c.toNat = 9 ∨ c.toNat = 10 ∨ c.toNat = 13)

/-- `String.prototype.toLowerCase` on the ASCII strings in play, applied
character by character. -/
def jsLowerStr (s : String) : String := String.mk (s.data.map Char.toLower)

/-- `trim` on a character list: drop whitespace from the front, then from
the back. -/
def jsTrimList (l : List Char) : List Char :=
  (((l.dropWhile jsIsWS).reverse.dropWhile jsIsWS).reverse)

/-- `String.prototype.trim`. -/
def jsTrim (s : String) : String := String.mk (jsTrimList s.data)

/-! ## Challenge data model and grading -/

/-- One round's challenge: the target entry, the clue text and the
multiple-choice options (spec data model, assembled by `startGame` in
`App.tsx` from a `WordAndClueResponse`). -/
structure Challenge where
  target : Word
  clueText : String
  options : List String
deriving DecidableEq, Repr

/-- The grading comparison used identically by `handleManualAnswer`,
`handleMultipleChoiceAnswer` and `startListeningForAnswer` in `App.tsx`:
`submitted.toLowerCase().trim() === target.word.toLowerCase()`. -/
def gradeAnswer (c : Challenge) (submittedText : String) : Bool :=
  jsTrim (jsLowerStr submittedText) == jsLowerStr c.target.word

/-! ## Session statistics (`useGameState` in `GameInterface.tsx`) -/

/-- The `GameStats` record.  The source uses JavaScript numbers; they are
modelled as `Int` so that non-negativity is a statement, not a typing
artifact. -/
structure GameStats where
  totalAttempted : Int
  correctAnswers : Int
  incorrectAnswers : Int
  currentStreak : Int
  bestStreak : Int
deriving DecidableEq, Repr

/-- `initialStats` from `GameInterface.tsx`. -/
def initialStats : GameStats := ⟨0, 0, 0, 0, 0⟩

/-- The `updateStats` callback of `useGameState` (statistics part). -/
def updateStats (isCorrect : Bool) (s : GameStats) : GameStats :=
  if isCorrect then
    { s with
      totalAttempted := s.totalAttempted + 1
      correctAnswers := s.correctAnswers + 1
      currentStreak := s.currentStreak + 1
      bestStreak := max s.bestStreak (s.currentStreak + 1) }
  else
    { s with
      totalAttempted := s.totalAttempted + 1
      incorrectAnswers := s.incorrectAnswers + 1
      currentStreak := 0 }

/-- The speech mode union type of `speechService.ts`. -/
inductive SpeechMode where
  | full
  | concise
  | disabled
deriving DecidableEq, Repr

/-- The `GameState` record of `useGameState`. -/
structure GameState where
  currentWord : Option Word
  currentClue : String
  isPlaying : Bool
  gameStats : GameStats
  selectedLevel : LevelSel
  showAnswer : Bool
  lastAnswer : String
  isCorrect : Option Bool
  speechMode : SpeechMode
  multipleChoiceOptions : List String
  selectedChoice : Option String
deriving DecidableEq, Repr

/-- `initialState` from `GameInterface.tsx`. -/
def initialState : GameState :=
  { currentWord := none
    currentClue := ""
    isPlaying := false
    gameStats := initialStats
    selectedLevel := LevelSel.ALL
    showAnswer := false
    lastAnswer := ""
    isCorrect := none
    speechMode := SpeechMode.disabled
    multipleChoiceOptions := []
    selectedChoice := none }

/-- The `resetGame` callback of `useGameState`:
`{...initialState, speechMode: prev.speechMode}`. -/
def resetGame (prev : GameState) : GameState :=
  { initialState with speechMode := prev.speechMode }

/-! ## Distractor generation (`generateMultipleChoiceOptions` in
`aiService.ts`)

The two `while` loops draw random candidates; each `Math.random()` call is
modelled by consuming one entry of a stream of naturals (taken modulo the
range size), and possible non-termination by a fuel parameter: a `none`
result means the fuel ran out before the loop condition failed. -/

/-- Placeholder for out-of-range indexing (never reached when the index is
reduced modulo a positive length). -/
def dummyWord : Word := ⟨"", Level.A1, "", "", ""⟩

/-- The hard-coded `fallbackOptions` array inside the second `while` loop. -/
def genericFallbackWords : List String :=
  ["answer", "option", "choice", "word", "item", "thing", "place", "time"]

/-- `levelWords`: the vocabulary pool filtered by level (`'ALL'` keeps the
whole store). -/
def levelWordsFor (level : LevelSel) : List Word :=
  match level with
  | LevelSel.ALL => oxford3000Words
  | LevelSel.level l => oxford3000Words.filter (fun w => w.level = l)

/-- `samePartOfSpeech`: same `partOfSpeech` as the correct word and a
(case-sensitively) different `word`. -/
def samePartOfSpeechPool (correct : Word) (level : LevelSel) : List Word :=
  (levelWordsFor level).filter
    (fun w => w.partOfSpeech == correct.partOfSpeech && w.word != correct.word)

/-- `availableWords = samePartOfSpeech.length >= 3 ? samePartOfSpeech :
levelWords`. -/
def availableWordsFor (correct : Word) (level : LevelSel) : List Word :=
  if 3 ≤ (samePartOfSpeechPool correct level).length then
    samePartOfSpeechPool correct level
  else levelWordsFor level

/-- First `while` loop: `while (incorrectOptions.length < 3 &&
availableWords.length > incorrectOptions.length)` pick a random pool word and
keep it unless its lowercase form is already in `usedWords`. -/
def pickLoop (avail : List Word) :
    Nat → List Nat → List String → List String →
    Option (List String × List String)
  | 0, _, acc, used =>
      if acc.length < 3 ∧ acc.length < avail.length then none
      else some (acc, used)
  | fuel + 1, stream, acc, used =>
      if acc.length < 3 ∧ acc.length < avail.length then
        let w := avail.getD (stream.headD 0 % avail.length) dummyWord
        if used.contains (jsLowerStr w.word) then
          pickLoop avail fuel stream.tail acc used
        else
          pickLoop avail fuel stream.tail (acc ++ [w.word])
            (used ++ [jsLowerStr w.word])
      else some (acc, used)

/-- Second `while` loop: `while (incorrectOptions.length < 3)` fill from the
generic fallback list, skipping used words. -/
def genericLoop :
    Nat → List Nat → List String → List String →
    Option (List String × List String)
  | 0, _, acc, used => if acc.length < 3 then none else some (acc, used)
  | fuel + 1, stream, acc, used =>
      if acc.length < 3 then
        let f := genericFallbackWords.getD
          (stream.headD 0 % genericFallbackWords.length) ""
        if used.contains f then genericLoop fuel stream.tail acc used
        else genericLoop fuel stream.tail (acc ++ [f]) (used ++ [f])
      else some (acc, used)

/-- The distractor-selection part of `generateMultipleChoiceOptions`: both
loops in sequence starting from `usedWords = new Set([correct.word
.toLowerCase()])`, then `incorrectOptions.slice(0, 3)`. -/
def selectDistractors (correct : Word) (level : LevelSel) (fuel : Nat)
    (s1 s2 : List Nat) : Option (List String) :=
  match pickLoop (availableWordsFor correct level) fuel s1 []
      [jsLowerStr correct.word] with
  | none => none
  | some (acc, used) =>
    match genericLoop fuel s2 acc used with
    | none => none
    | some (acc2, _) => some (acc2.take 3)

/-- The destructuring swap `[a[i], a[j]] = [a[j], a[i]]`. -/
def swapList (l : List α) (i j : Nat) : List α :=
  match l.get? i, l.get? j with
  | some a, some b => (l.set i b).set j a
  | _, _ => l

/-- The Fisher-Yates loop `for (let i = n - 1; i > 0; i--)` with
`j = Math.floor(Math.random() * (i + 1))`. -/
def fyGo : Nat → List Nat → List α → List α
  | 0, _, l => l
  | i + 1, stream, l =>
      fyGo i stream.tail (swapList l (i + 1) (stream.headD 0 % (i + 2)))

/-- The Fisher-Yates shuffle of `generateMultipleChoiceOptions`. -/
def fisherYates (stream : List Nat) (l : List α) : List α :=
  fyGo (l.length - 1) stream l

/-- `generateMultipleChoiceOptions`: the correct word consed onto the three
distractors, then shuffled. -/
def generateMultipleChoiceOptions (correct : Word) (level : LevelSel)
    (fuel : Nat) (s1 s2 s3 : List Nat) : Option (List String) :=
  (selectDistractors correct level fuel s1 s2).map
    (fun ds => fisherYates s3 (correct.word :: ds))

/-! ## Challenge acquisition (`startGame` in `App.tsx`) -/

/-- The `WordAndClueResponse` interface of `aiService.ts`. -/
structure WordAndClueResponse where
  word : Word
  clue : String
  difficulty : Nat
  multipleChoiceOptions : List String
deriving DecidableEq, Repr

/-- `replace(word, '____')` on the example sentence: JavaScript
`String.prototype.replace` with a string pattern replaces only the first
occurrence. -/
def replaceFirst (s pat repl : String) : String :=
  match s.splitOn pat with
  | [] => s
  | [_] => s
  | first :: rest => first ++ repl ++ String.intercalate pat rest

/-- The fallback clue template of the `catch` branch of `startGame`. -/
def fallbackClue (w : Word) : String :=
  "This word means \"" ++ w.definition ++ "\". Complete this sentence: \"" ++
    replaceFirst w.exampleSentence w.word "____" ++ "\""

/-- The fallback option list `[word.word, 'example', 'answer', 'question']`
built in the `catch` branch of `startGame` (before its random sort). -/
def fallbackOptionsBase (w : Word) : List String :=
  [w.word, "example", "answer", "question"]

/-- The whole `catch` branch of `startGame`: draw a random store word
(filtered by level unless `'ALL'`), build the templated clue, and shuffle the
fixed option list.  `allWords.sort(() => Math.random() - 0.5)` is modelled by
an arbitrary rearrangement function `shuffle` (the theorems assume only that
it permutes its input). -/
def startGameFallback (level : LevelSel) (r : Nat)
    (shuffle : List String → List String) : Option Challenge :=
  let levelArg := match level with
    | LevelSel.ALL => none
    | LevelSel.level l => some l
  match getRandomWord levelArg r with
  | none => none
  | some word =>
    some ⟨word, fallbackClue word, shuffle (fallbackOptionsBase word)⟩

/-- `startGame`: the primary path packages the `WordAndClueResponse` into the
round's challenge; on any thrown error the fallback branch runs. -/
def startGameChallenge (primary : Except ThrownError WordAndClueResponse)
    (level : LevelSel) (r : Nat) (shuffle : List String → List String) :
    Option Challenge :=
  match primary with
  | Except.ok wc => some ⟨wc.word, wc.clue, wc.multipleChoiceOptions⟩
  | Except.error _ => startGameFallback level r shuffle

/-! ## Theorems -/

/-- C10: `resetGame` returns every field of the game state to its initial
value (zeroed statistics, no current word, empty clue, no options, answer
flags cleared, level back to `ALL`), except `speechMode`, which keeps
exactly its pre-reset value. -/
theorem resetGame_resets_all_but_speechMode (s : GameState) :
    (resetGame s).currentWord = none ∧
    (resetGame s).currentClue = "" ∧
    (resetGame s).isPlaying = false ∧
    (resetGame s).gameStats = initialStats ∧
    initialStats = ⟨0, 0, 0, 0, 0⟩ ∧
    (resetGame s).selectedLevel = LevelSel.ALL ∧
    (resetGame s).showAnswer = false ∧
    (resetGame s).lastAnswer = "" ∧
    (resetGame s).isCorrect = none ∧
    (resetGame s).multipleChoiceOptions = [] ∧
    (resetGame s).selectedChoice = none ∧
    (resetGame s).speechMode = s.speechMode :=
  ⟨rfl, rfl, rfl, rfl, rfl, rfl, rfl, rfl, rfl, rfl, rfl, rfl⟩

/-- C3: after every `updateStats` update, `totalAttempted` equals
`correctAnswers + incorrectAnswers`, the new `bestStreak` is the maximum of
the previous `bestStreak` and the new `currentStreak`, `currentStreak` is 0
whenever the graded answer was incorrect, and all five fields remain
non-negative. -/
theorem updateStats_invariants (b : Bool) (s : GameStats)
    (htotal : s.totalAttempted = s.correctAnswers + s.incorrectAnswers)
    (hnn : 0 ≤ s.correctAnswers ∧ 0 ≤ s.incorrectAnswers ∧
      0 ≤ s.currentStreak ∧ 0 ≤ s.bestStreak) :
    (updateStats b s).totalAttempted =
        (updateStats b s).correctAnswers + (updateStats b s).incorrectAnswers ∧
    (updateStats b s).bestStreak =
        max s.bestStreak (updateStats b s).currentStreak ∧
    (b = false → (updateStats b s).currentStreak = 0) ∧
    (0 ≤ (updateStats b s).totalAttempted ∧
     0 ≤ (updateStats b s).correctAnswers ∧
     0 ≤ (updateStats b s).incorrectAnswers ∧
     0 ≤ (updateStats b s).currentStreak ∧
     0 ≤ (updateStats b s).bestStreak) := by
  obtain ⟨h1, h2, h3, h4⟩ := hnn
  cases b with
  | false =>
    refine ⟨by simp [updateStats]; omega, ?_, by simp [updateStats], ?_⟩
    · simp [updateStats]
      omega
    · simp [updateStats]
      omega
  | true =>
    refine ⟨by simp [updateStats]; omega, by simp [updateStats], by simp, ?_⟩
    simp [updateStats]
    omega

/-- C3 witness: the invariants instantiated at the initial statistics and an
incorrect answer. -/
theorem updateStats_invariants_witness :
    (updateStats false initialStats).currentStreak = 0 :=
  (updateStats_invariants false initialStats (by decide)
    ⟨by decide, by decide, by decide, by decide⟩).2.2.1 rfl

/-- C6 counterexample: the operation actually wrapped in
`fetchWordAndClue` throws a plain `Error` for a 401 response (not an
`APIError`), so `retryWithBackoff` with the configured `maxAttempts = 3`,
`baseDelay = 1000` invokes it three times (with backoff 1000 + 2000 ms)
instead of once. -/
theorem retryWithBackoff_plain401_retried :
    retryWithBackoff
        (fun _ => (Except.error (ThrownError.plain
          "Invalid OpenAI API key. Please check your API key configuration.")
          : Except ThrownError Nat)) 3 1000 =
      (Except.error (ThrownError.plain
        "Invalid OpenAI API key. Please check your API key configuration."),
        3, 3000) ∧
    (3 : Nat) ≠ 1 := by
  exact ⟨rfl, by decide⟩

/-- C6 (amended): `retryWithBackoff` invokes the operation exactly once and
propagates immediately when the failures are `APIError` instances typed
`Authentication` or `Validation`; errors thrown as plain `Error` values (as
the provider call paths do, even for a 401) do not short-circuit. -/
theorem retryWithBackoff_shortCircuits (op : Nat → Except ThrownError α)
    (maxAttempts baseDelay : Nat) (e : APIError)
    (hmax : 1 ≤ maxAttempts)
    (hop : ∀ k, op k = Except.error (ThrownError.api e))
    (htype : e.type = ErrorTypes.AUTHENTICATION ∨
      e.type = ErrorTypes.VALIDATION) :
    retryWithBackoff op maxAttempts baseDelay =
      (Except.error (ThrownError.api e), 1, 0) := by
  obtain ⟨m, rfl⟩ : ∃ m, maxAttempts = m + 1 := ⟨maxAttempts - 1, by omega⟩
  have hsc : isNonRetryable (ThrownError.api e) = true := by
    simp [isNonRetryable]
    tauto
  unfold retryWithBackoff retryAux
  rw [hop 1]
  simp [hsc]

/-- C6 witness: the short-circuit applied to a concrete always-failing
authentication-typed `APIError` operation. -/
theorem retryWithBackoff_shortCircuits_witness :
    retryWithBackoff
        (fun _ => (Except.error (ThrownError.api
          ⟨"Invalid OpenAI API key. Please check your configuration.",
            ErrorTypes.AUTHENTICATION, some 401⟩) : Except ThrownError Nat))
        3 1000 =
      (Except.error (ThrownError.api
        ⟨"Invalid OpenAI API key. Please check your configuration.",
          ErrorTypes.AUTHENTICATION, some 401⟩), 1, 0) :=
  retryWithBackoff_shortCircuits _ 3 1000 _ (by decide) (fun _ => rfl)
    (Or.inl rfl)

/-- C7 counterexample: a 402 response is classified `VALIDATION` (not
`QUOTA_EXCEEDED`) by the OpenAI handler, which has no 402 case and falls
through to `classifyHttpError`; only the ElevenLabs handler maps 402 to
`QUOTA_EXCEEDED`. -/
theorem handleOpenAIError_402_is_validation :
    (handleOpenAIError ⟨"Error", some 402, false, none⟩).type =
      ErrorTypes.VALIDATION ∧
    (handleElevenLabsError ⟨"Error", some 402, false, none⟩).type =
      ErrorTypes.QUOTA_EXCEEDED ∧
    ErrorTypes.VALIDATION ≠ ErrorTypes.QUOTA_EXCEEDED := by
  exact ⟨rfl, rfl, by decide⟩

/-- C7 (amended): both error handlers map 401/403 to `Authentication`, 429
to `RateLimit`, 422 and every other 4xx to `Validation`, 5xx to `Server`, a
client-side abort to `Timeout`, a transport-level failure with no response to
`Network`, and everything else to `Unknown` — with the single exception that
402 maps to `QuotaExceeded` only in the ElevenLabs handler, while the OpenAI
handler classifies 402 as `Validation`. -/
theorem errorHandlers_classification (e : JSRequestError) (s : Nat) :
    (e.name = "AbortError" →
      (handleOpenAIError e).type = ErrorTypes.TIMEOUT ∧
      (handleElevenLabsError e).type = ErrorTypes.TIMEOUT) ∧
    (e.name ≠ "AbortError" → e.responseStatus = some s →
      (((s = 401 ∨ s = 403) →
          (handleOpenAIError e).type = ErrorTypes.AUTHENTICATION ∧
          (handleElevenLabsError e).type = ErrorTypes.AUTHENTICATION) ∧
       (s = 429 →
          (handleOpenAIError e).type = ErrorTypes.RATE_LIMIT ∧
          (handleElevenLabsError e).type = ErrorTypes.RATE_LIMIT) ∧
       (s = 402 →
          (handleOpenAIError e).type = ErrorTypes.VALIDATION ∧
          (handleElevenLabsError e).type = ErrorTypes.QUOTA_EXCEEDED) ∧
       (400 ≤ s → s < 500 → s ≠ 401 → s ≠ 403 → s ≠ 429 → s ≠ 402 →
          (handleOpenAIError e).type = ErrorTypes.VALIDATION ∧
          (handleElevenLabsError e).type = ErrorTypes.VALIDATION) ∧
       (500 ≤ s →
          (handleOpenAIError e).type = ErrorTypes.SERVER ∧
          (handleElevenLabsError e).type = ErrorTypes.SERVER) ∧
       (s < 400 →
          (handleOpenAIError e).type = ErrorTypes.UNKNOWN ∧
          (handleElevenLabsError e).type = ErrorTypes.UNKNOWN))) ∧
    (e.name ≠ "AbortError" → e.responseStatus = none →
      ((e.hasRequest = true →
          (handleOpenAIError e).type = ErrorTypes.NETWORK ∧
          (handleElevenLabsError e).type = ErrorTypes.NETWORK) ∧
       (e.hasRequest = false →
          (handleOpenAIError e).type = ErrorTypes.UNKNOWN ∧
          (handleElevenLabsError e).type = ErrorTypes.UNKNOWN))) := by
  obtain ⟨nm, st, rq, dm⟩ := e
  refine ⟨?_, ?_, ?_⟩
  · intro h
    subst h
    exact ⟨rfl, rfl⟩
  · intro hnm hst
    simp only at hst
    subst hst
    refine ⟨?_, ?_, ?_, ?_, ?_, ?_⟩
    · rintro (rfl | rfl) <;>
        simp [handleOpenAIError, handleElevenLabsError, classifyHttpError, hnm]
    · rintro rfl
      simp [handleOpenAIError, handleElevenLabsError, hnm]
    · rintro rfl
      simp [handleOpenAIError, handleElevenLabsError, classifyHttpError, hnm]
    · intro h1 h2 h3 h4 h5 h6
      simp [handleOpenAIError, handleElevenLabsError, classifyHttpError, hnm,
        h3, h4, h5, h6, h1, h2]
    · intro h1
      have h2 : ¬(400 ≤ s ∧ s < 500) := by omega
      have h3 : s ≠ 401 := by omega
      have h4 : s ≠ 429 := by omega
      have h5 : s ≠ 402 := by omega
      simp [handleOpenAIError, handleElevenLabsError, classifyHttpError, hnm,
        h1, h2, h3, h4, h5]
    · intro h1
      have h2 : ¬(400 ≤ s ∧ s < 500) := by omega
      have h3 : s ≠ 401 := by omega
      have h4 : s ≠ 429 := by omega
      have h5 : s ≠ 402 := by omega
      have h6 : ¬(500 ≤ s) := by omega
      simp [handleOpenAIError, handleElevenLabsError, classifyHttpError, hnm,
        h2, h3, h4, h5, h6]
  · intro hnm hst
    simp only at hst
    subst hst
    constructor
    · intro h
      subst h
      simp [handleOpenAIError, handleElevenLabsError, hnm]
    · intro h
      subst h
      simp [handleOpenAIError, handleElevenLabsError, hnm]

/-- C7 witness: the classification applied to a concrete 500 response. -/
theorem errorHandlers_classification_witness :
    (handleOpenAIError ⟨"Error", some 500, false, none⟩).type =
      ErrorTypes.SERVER :=
  (((errorHandlers_classification ⟨"Error", some 500, false, none⟩ 500).2.1
    (by decide) rfl).2.2.2.2.1 (by omega)).1

/-- An element of a list failing the filter predicate makes the filtered
list strictly shorter. -/
theorem length_filter_lt_of_mem_not (p : α → Bool) (l : List α) (x : α)
    (hx : x ∈ l) (hpx : p x = false) :
    (l.filter p).length < l.length := by
  rcases Nat.lt_or_ge (l.filter p).length l.length with h | h
  · exact h
  · exfalso
    have hsub := List.filter_sublist (l := l) (p := p)
    have heq : l.filter p = l :=
      hsub.eq_of_length (Nat.le_antisymm hsub.length_le h)
    have := (List.filter_eq_self.mp heq) x hx
    rw [hpx] at this
    exact Bool.false_ne_true this

/-- C8 counterexample: with ceiling 1 and requests recorded at 0 ms and
1000 ms, at `now = 60001` the current time has advanced past the oldest
timestamp plus 60 seconds, yet `canMakeRequest` still reports `false`
because a second in-window timestamp keeps the count at the ceiling. -/
theorem rateLimiter_ageout_counterexample :
    ((60001 : Int) > 0 + 60000) ∧
    (RateLimiter.canMakeRequest ⟨1, [0, 1000]⟩ 60001).1 = false := by
  exact ⟨by decide, by decide⟩

/-- C8 (amended): with all recorded timestamps inside the window,
`canMakeRequest` admits exactly when the count is below the ceiling; in
general it admits exactly when the in-window count is below the ceiling, so
once the current time passes the oldest timestamp plus 60 s admission
returns only if fewer than ceiling timestamps remain in the window — in
particular it does return when exactly `ceiling` requests were recorded.
`getTimeUntilNextRequest` returns 0 when admissible and otherwise the
(positive) duration until the oldest in-window timestamp ages out. -/
theorem rateLimiter_admission_spec (rl : RateLimiter) (now : Int) :
    ((∀ t ∈ rl.requests, t > now - 60000) →
      ((RateLimiter.canMakeRequest rl now).1 = true ↔
        rl.requests.length < rl.requestsPerMinute)) ∧
    ((RateLimiter.canMakeRequest rl now).1 = true ↔
      (rl.requests.filter (fun t => t > now - 60000)).length <
        rl.requestsPerMinute) ∧
    (∀ m, m ∈ rl.requests →
      rl.requests.length = rl.requestsPerMinute → now > m + 60000 →
      (RateLimiter.canMakeRequest rl now).1 = true) ∧
    ((RateLimiter.canMakeRequest rl now).1 = true →
      (RateLimiter.getTimeUntilNextRequest rl now).1 = some 0) ∧
    (∀ m, (RateLimiter.canMakeRequest rl now).1 = false →
      (rl.requests.filter (fun t => t > now - 60000)).min? = some m →
      (RateLimiter.getTimeUntilNextRequest rl now).1 =
          some (m + 60000 - now) ∧
        0 < m + 60000 - now) := by
  refine ⟨?_, ?_, ?_, ?_, ?_⟩
  · intro hall
    have heq : rl.requests.filter (fun t => t > now - 60000) = rl.requests :=
      List.filter_eq_self.mpr (fun a ha => decide_eq_true (hall a ha))
    simp [RateLimiter.canMakeRequest, heq]
  · simp [RateLimiter.canMakeRequest]
  · intro m hm hlen hnow
    have hfail : (decide (now - 60000 < m)) = false := by
      simp
      omega
    have := length_filter_lt_of_mem_not (fun t => decide (now - 60000 < t))
      rl.requests m hm hfail
    simp [RateLimiter.canMakeRequest, gt_iff_lt]
    omega
  · intro h
    simp [RateLimiter.getTimeUntilNextRequest, h]
  · intro m hfalse hmin
    have hmem : m ∈ rl.requests.filter (fun t => t > now - 60000) :=
      List.min?_mem (fun a b => min_choice a b) hmin
    have hwin : m > now - 60000 := by
      have := (List.mem_filter.mp hmem).2
      simpa using this
    have hpos : 0 < m + 60000 - now := by omega
    have hmax : max 0 (m + 60000 - now) = m + 60000 - now :=
      max_eq_right (le_of_lt hpos)
    refine ⟨?_, hpos⟩
    have heq : RateLimiter.getTimeUntilNextRequest rl now =
        if (RateLimiter.canMakeRequest rl now).1
        then (some 0, (RateLimiter.canMakeRequest rl now).2)
        else match (RateLimiter.canMakeRequest rl now).2.requests.min? with
          | some oldest =>
              (some (max 0 (oldest + 60000 - now)),
                (RateLimiter.canMakeRequest rl now).2)
          | none => (none, (RateLimiter.canMakeRequest rl now).2) := rfl
    have hreq : (RateLimiter.canMakeRequest rl now).2.requests =
        rl.requests.filter (fun t => t > now - 60000) := rfl
    rw [heq, hfalse, hreq, hmin]
    simp [hmax]

/-- C8 witness: a limiter with ceiling 1 and one request at 0 ms queried at
30000 ms is not admissible and reports a 30-second wait. -/
theorem rateLimiter_admission_spec_witness :
    (RateLimiter.getTimeUntilNextRequest ⟨1, [0]⟩ 30000).1 =
      some ((0 : Int) + 60000 - 30000) :=
  ((rateLimiter_admission_spec ⟨1, [0]⟩ 30000).2.2.2.2 0 (by decide)
    (by decide)).1

/-- C9 counterexample: `canMakeRequest` reassigns `this.requests` to the
pruned array — with a request recorded at 0 ms, calling it at 70000 ms
changes the stored timestamp collection from `[0]` to `[]`. -/
theorem canMakeRequest_mutates_requests :
    (RateLimiter.canMakeRequest ⟨60, [0]⟩ 70000).2.requests = [] ∧
    ([] : List Int) ≠ [0] := by
  exact ⟨by decide, by decide⟩

/-- C9 (amended): `canMakeRequest` does mutate the stored collection, but
only by discarding expired timestamps: the stored collection becomes exactly
the in-window subset, membership of in-window timestamps is preserved, the
ceiling is untouched, a second call at the same instant changes nothing
further, and `recordRequest` is the operation that appends. -/
theorem canMakeRequest_frame_spec (rl : RateLimiter) (now : Int) :
    ((RateLimiter.canMakeRequest rl now).2.requests =
      rl.requests.filter (fun t => t > now - 60000)) ∧
    (∀ t, t ∈ (RateLimiter.canMakeRequest rl now).2.requests ↔
      (t ∈ rl.requests ∧ t > now - 60000)) ∧
    ((RateLimiter.canMakeRequest rl now).2.requestsPerMinute =
      rl.requestsPerMinute) ∧
    (RateLimiter.canMakeRequest (RateLimiter.canMakeRequest rl now).2 now =
      RateLimiter.canMakeRequest rl now) ∧
    ((RateLimiter.recordRequest rl now).requests = rl.requests ++ [now]) := by
  refine ⟨rfl, ?_, rfl, ?_, rfl⟩
  · intro t
    simp [RateLimiter.canMakeRequest, List.mem_filter]
  · simp [RateLimiter.canMakeRequest, List.filter_filter]

/-- `Char.ofNat` round-trips on valid (here: below the surrogate range)
codepoints. -/
theorem char_toNat_ofNat_valid (n : Nat) (h : n < 55296) :
    (Char.ofNat n).toNat = n := by
  have hv : n.isValidChar := Or.inl h
  unfold Char.ofNat
  rw [dif_pos hv]
  rfl

/-- Lowercasing neither creates nor destroys whitespace characters. -/
theorem jsIsWS_toLower (c : Char) : jsIsWS c.toLower = jsIsWS c := by
  unfold Char.toLower
  by_cases h : c.toNat ≥ 65 ∧ c.toNat ≤ 90
  · rw [if_pos h]
    have hv : (Char.ofNat (c.toNat + 32)).toNat = c.toNat + 32 :=
      char_toNat_ofNat_valid _ (by omega)
    unfold jsIsWS
    rw [hv, decide_eq_decide]
    omega
  · rw [if_neg h]

/-- Trimming commutes with per-character lowercasing. -/
theorem jsTrimList_map_toLower (l : List Char) :
    jsTrimList (l.map Char.toLower) = (jsTrimList l).map Char.toLower := by
  have hfun : jsIsWS ∘ Char.toLower = jsIsWS := funext jsIsWS_toLower
  unfold jsTrimList
  rw [List.dropWhile_map, hfun, ← List.map_reverse, List.dropWhile_map, hfun,
    ← List.map_reverse]

/-- `trim` after `toLowerCase` equals `toLowerCase` after `trim`. -/
theorem jsTrim_jsLowerStr (s : String) :
    jsTrim (jsLowerStr s) = jsLowerStr (jsTrim s) := by
  show String.mk (jsTrimList (s.data.map Char.toLower)) =
    String.mk ((jsTrimList s.data).map Char.toLower)
  rw [jsTrimList_map_toLower]

/-- C4: grading returns true exactly when the submitted text, after trimming
surrounding whitespace and lowercasing, equals the lowercased target
`surfaceForm`; with target `"example"`, `" Example "` grades true and any
text whose trimmed lowercase form differs from `"example"` grades false. -/
theorem gradeAnswer_spec (c : Challenge) (t : String) :
    (gradeAnswer c t = true ↔
      jsLowerStr (jsTrim t) = jsLowerStr c.target.word) ∧
    (c.target.word = "example" → gradeAnswer c " Example " = true) ∧
    (c.target.word = "example" →
      (gradeAnswer c t = true ↔ jsLowerStr (jsTrim t) = "example")) := by
  have key : ∀ u : String, (gradeAnswer c u = true ↔
      jsLowerStr (jsTrim u) = jsLowerStr c.target.word) := by
    intro u
    unfold gradeAnswer
    rw [jsTrim_jsLowerStr, beq_iff_eq]
  refine ⟨key t, ?_, ?_⟩
  · intro h
    unfold gradeAnswer
    rw [h]
    rfl
  · intro h
    rw [key t, h]
    rw [show jsLowerStr "example" = "example" from rfl]

/-- C4 witness: a concrete challenge targeting `"example"` grades
`" Example "` as correct. -/
theorem gradeAnswer_spec_witness :
    gradeAnswer ⟨⟨"example", Level.A1, "", "", ""⟩, "", []⟩ " Example " =
      true :=
  (gradeAnswer_spec ⟨⟨"example", Level.A1, "", "", ""⟩, "", []⟩
    " Example ").2.1 rfl

/-- Every entry of the vocabulary store has a non-empty surface form. -/
theorem oxford_words_nonempty : ∀ w ∈ oxford3000Words, w.word ≠ "" := by
  decide

/-- C1: whatever error the primary challenge-provider path fails with, the
fallback branch of `startGame` succeeds without raising and yields a
challenge drawn from the vocabulary store whose `target.level` equals the
requested (non-`ALL`) level, with a non-empty target word and four options
containing the target. -/
theorem fetchChallenge_fallback_wellformed (e : ThrownError) (l : Level)
    (r : Nat) (shuffle : List String → List String)
    (hr : r < 20)
    (hs : ∀ xs : List String, (shuffle xs).Perm xs) :
    ∃ c : Challenge,
      startGameChallenge (Except.error e) (LevelSel.level l) r shuffle =
        some c ∧
      c.target ∈ oxford3000Words ∧
      c.target.level = l ∧
      c.target.word ≠ "" ∧
      c.options.length = 4 ∧
      c.target.word ∈ c.options := by
  have hlen : (getWordsByLevel l).length = 20 := by cases l <;> rfl
  have hr' : r < (getWordsByLevel l).length := by omega
  obtain ⟨w, hw⟩ : ∃ w, (getWordsByLevel l).get? r = some w := by
    rw [List.get?_eq_get hr']
    exact ⟨_, rfl⟩
  have hmemlvl : w ∈ getWordsByLevel l := List.get?_mem hw
  have hsplit := List.mem_filter.mp (show w ∈ oxford3000Words.filter
    (fun x => decide (x.level = l)) from hmemlvl)
  have hmemox : w ∈ oxford3000Words := hsplit.1
  have hlvl : w.level = l := of_decide_eq_true hsplit.2
  have hne : w.word ≠ "" := oxford_words_nonempty w hmemox
  refine ⟨⟨w, fallbackClue w, shuffle (fallbackOptionsBase w)⟩,
    ?_, hmemox, hlvl, hne, ?_, ?_⟩
  · have hw' : (getWordsByLevel l)[r]? = some w := by
      rw [← List.get?_eq_getElem?]
      exact hw
    simp [startGameChallenge, startGameFallback, getRandomWord, hw']
  · exact (hs _).length_eq.trans rfl
  · exact ((hs _).mem_iff).mpr (by simp [fallbackOptionsBase])

/-- C1 witness: the fallback applied to a concrete provider failure at level
A1 with the first random draw and the identity shuffle. -/
theorem fetchChallenge_fallback_wellformed_witness :
    ∃ c : Challenge,
      startGameChallenge (Except.error (ThrownError.plain "OpenAI API Error"))
        (LevelSel.level Level.A1) 0 id = some c ∧
      c.target ∈ oxford3000Words ∧
      c.target.level = Level.A1 ∧
      c.target.word ≠ "" ∧
      c.options.length = 4 ∧
      c.target.word ∈ c.options :=
  fetchChallenge_fallback_wellformed _ _ 0 id (by decide)
    (fun xs => List.Perm.refl xs)

/-- Setting position `i` exchanges one occurrence of `l[i]` for one
occurrence of the new element in the count of any value. -/
theorem count_set_balance [DecidableEq α] (l : List α) (i : Nat)
    (h : i < l.length) (a x : α) :
    (l.set i a).count x + (if l[i] = x then 1 else 0)
      = l.count x + (if a = x then 1 else 0) := by
  have hl : l.take i ++ l[i] :: l.drop (i + 1) = l := by
    rw [List.getElem_cons_drop, List.take_append_drop]
  have hset : l.set i a = l.take i ++ a :: l.drop (i + 1) :=
    List.set_eq_take_cons_drop a h
  conv_lhs => rw [hset]
  conv_rhs => rw [← hl]
  rw [List.count_append, List.count_append, List.count_cons, List.count_cons]
  by_cases h1 : l[i] = x <;> by_cases h2 : a = x <;>
    simp [h1, h2] <;> omega

/-- The destructuring swap permutes the list. -/
theorem swapList_perm [DecidableEq α] (l : List α) (i j : Nat) :
    (swapList l i j).Perm l := by
  unfold swapList
  cases hi : l.get? i with
  | none => exact List.Perm.refl _
  | some a =>
    cases hj : l.get? j with
    | none => exact List.Perm.refl _
    | some b =>
      rw [List.get?_eq_getElem?] at hi hj
      have hi' : i < l.length := by
        by_contra hc
        rw [List.getElem?_eq_none (by omega)] at hi
        exact Option.noConfusion hi
      have hj' : j < l.length := by
        by_contra hc
        rw [List.getElem?_eq_none (by omega)] at hj
        exact Option.noConfusion hj
      have ha : l[i] = a := by
        rw [List.getElem?_eq_getElem hi'] at hi
        exact Option.some.inj hi
      have hb : l[j] = b := by
        rw [List.getElem?_eq_getElem hj'] at hj
        exact Option.some.inj hj
      have hjset : j < (l.set i b).length := by
        rw [List.length_set]
        exact hj'
      show ((l.set i b).set j a).Perm l
      rw [List.perm_iff_count]
      intro x
      have e2 := count_set_balance l i hi' b x
      have e1 := count_set_balance (l.set i b) j hjset a x
      have hsame : (l.set i b)[j] = b := by
        rw [List.getElem_set]
        split
        · rfl
        · exact hb
      rw [hsame] at e1
      rw [ha] at e2
      omega

/-- The whole Fisher-Yates loop permutes the list. -/
theorem fyGo_perm [DecidableEq α] :
    ∀ (n : Nat) (stream : List Nat) (l : List α), (fyGo n stream l).Perm l
  | 0, _, _ => List.Perm.refl _
  | i + 1, stream, l =>
    (fyGo_perm i stream.tail _).trans (swapList_perm l (i + 1) _)

/-- `fisherYates` permutes the list. -/
theorem fisherYates_perm [DecidableEq α] (stream : List Nat) (l : List α) :
    (fisherYates stream l).Perm l :=
  fyGo_perm _ _ _

/-- In-range `getD` returns a member of the list. -/
theorem getD_mem_of_lt (l : List α) (k : Nat) (d : α) (hk : k < l.length) :
    l.getD k d ∈ l := by
  rw [List.getD_eq_getElem?_getD, List.getElem?_eq_getElem hk]
  simp only [Option.getD_some]
  exact List.getElem_mem hk

/-- `contains = false` means non-membership (for lawful `BEq`). -/
theorem contains_false_not_mem [BEq α] [LawfulBEq α] {l : List α} {s : α}
    (h : l.contains s = false) : s ∉ l := by
  intro hm
  rw [List.contains_eq_any_beq] at h
  have : l.any (s == ·) = true := List.any_eq_true.mpr ⟨s, hm, beq_self_eq_true s⟩
  rw [h] at this
  exact Bool.false_ne_true this

/-- Every invariant of the first distractor loop is preserved: the used-set
stays the lowercased accumulator plus the initial entry, stays duplicate
free, the accumulator stays within three entries all satisfying `P`, and on
normal exit either three distractors were found or the pool was exhausted. -/
theorem pickLoop_sound (avail : List Word) (h0 : String) (P : String → Prop)
    (hP : ∀ w ∈ avail, P w.word) :
    ∀ (fuel : Nat) (stream : List Nat) (acc used acc2 used2 : List String),
    pickLoop avail fuel stream acc used = some (acc2, used2) →
    used = h0 :: acc.map jsLowerStr →
    used.Nodup →
    acc.length ≤ 3 →
    (∀ a ∈ acc, P a) →
    used2 = h0 :: acc2.map jsLowerStr ∧ used2.Nodup ∧ acc2.length ≤ 3 ∧
      (∀ a ∈ acc2, P a) ∧
      (acc2.length = 3 ∨ avail.length ≤ acc2.length) := by
  intro fuel
  induction fuel with
  | zero =>
    intro stream acc used acc2 used2 hrun h1 h2 h3 h4
    unfold pickLoop at hrun
    by_cases hcond : acc.length < 3 ∧ acc.length < avail.length
    · rw [if_pos hcond] at hrun
      exact Option.noConfusion hrun
    · rw [if_neg hcond] at hrun
      have hinj := Option.some.inj hrun
      obtain ⟨rfl, rfl⟩ : acc = acc2 ∧ used = used2 :=
        ⟨congrArg Prod.fst hinj, congrArg Prod.snd hinj⟩
      exact ⟨h1, h2, h3, h4, by omega⟩
  | succ f ih =>
    intro stream acc used acc2 used2 hrun h1 h2 h3 h4
    unfold pickLoop at hrun
    by_cases hcond : acc.length < 3 ∧ acc.length < avail.length
    · rw [if_pos hcond] at hrun
      simp only at hrun
      set w := avail.getD (stream.headD 0 % avail.length) dummyWord with hw
      have hwmem : w ∈ avail := by
        rw [hw]
        exact getD_mem_of_lt _ _ _ (Nat.mod_lt _ (by omega))
      cases hc : used.contains (jsLowerStr w.word) with
      | true =>
        rw [if_pos hc] at hrun
        exact ih _ _ _ _ _ hrun h1 h2 h3 h4
      | false =>
        rw [if_neg (by rw [hc]; exact Bool.false_ne_true)] at hrun
        have hnotmem : jsLowerStr w.word ∉ used := contains_false_not_mem hc
        apply ih _ _ _ _ _ hrun
        · rw [h1]
          simp
        · exact ((List.perm_append_singleton _ _).nodup_iff).mpr
            (List.nodup_cons.mpr ⟨hnotmem, h2⟩)
        · simp
          omega
        · intro a ha
          rcases List.mem_append.mp ha with hmem | hmem
          · exact h4 a hmem
          · rw [List.mem_singleton.mp hmem]
            exact hP w hwmem
    · rw [if_neg hcond] at hrun
      have hinj := Option.some.inj hrun
      obtain ⟨rfl, rfl⟩ : acc = acc2 ∧ used = used2 :=
        ⟨congrArg Prod.fst hinj, congrArg Prod.snd hinj⟩
      exact ⟨h1, h2, h3, h4, by omega⟩

/-- The generic fallback words are lowercase already. -/
theorem genericFallback_lower_fixed :
    ∀ f ∈ genericFallbackWords, jsLowerStr f = f := by decide

/-- Every invariant of the second (generic fallback) distractor loop is
preserved, and on normal exit exactly three distractors are present. -/
theorem genericLoop_sound (h0 : String) (P : String → Prop)
    (hP : ∀ f ∈ genericFallbackWords, P f) :
    ∀ (fuel : Nat) (stream : List Nat) (acc used acc2 used2 : List String),
    genericLoop fuel stream acc used = some (acc2, used2) →
    used = h0 :: acc.map jsLowerStr →
    used.Nodup →
    acc.length ≤ 3 →
    (∀ a ∈ acc, P a) →
    used2 = h0 :: acc2.map jsLowerStr ∧ used2.Nodup ∧ acc2.length = 3 ∧
      (∀ a ∈ acc2, P a) := by
  intro fuel
  induction fuel with
  | zero =>
    intro stream acc used acc2 used2 hrun h1 h2 h3 h4
    unfold genericLoop at hrun
    by_cases hcond : acc.length < 3
    · rw [if_pos hcond] at hrun
      exact Option.noConfusion hrun
    · rw [if_neg hcond] at hrun
      have hinj := Option.some.inj hrun
      obtain ⟨rfl, rfl⟩ : acc = acc2 ∧ used = used2 :=
        ⟨congrArg Prod.fst hinj, congrArg Prod.snd hinj⟩
      exact ⟨h1, h2, by omega, h4⟩
  | succ f ih =>
    intro stream acc used acc2 used2 hrun h1 h2 h3 h4
    unfold genericLoop at hrun
    by_cases hcond : acc.length < 3
    · rw [if_pos hcond] at hrun
      simp only at hrun
      set g := genericFallbackWords.getD
        (stream.headD 0 % genericFallbackWords.length) "" with hg
      have hgmem : g ∈ genericFallbackWords := by
        rw [hg]
        exact getD_mem_of_lt _ _ _
          (Nat.mod_lt _ (by simp [genericFallbackWords]))
      have hlow : jsLowerStr g = g := genericFallback_lower_fixed g hgmem
      cases hc : used.contains g with
      | true =>
        rw [if_pos hc] at hrun
        exact ih _ _ _ _ _ hrun h1 h2 h3 h4
      | false =>
        rw [if_neg (by rw [hc]; exact Bool.false_ne_true)] at hrun
        have hnotmem : g ∉ used := contains_false_not_mem hc
        apply ih _ _ _ _ _ hrun
        · rw [h1]
          simp [hlow]
        · exact ((List.perm_append_singleton _ _).nodup_iff).mpr
            (List.nodup_cons.mpr ⟨hnotmem, h2⟩)
        · simp
          omega
        · intro a ha
          rcases List.mem_append.mp ha with hmem | hmem
          · exact h4 a hmem
          · rw [List.mem_singleton.mp hmem]
            exact hP g hgmem
    · rw [if_neg hcond] at hrun
      have hinj := Option.some.inj hrun
      obtain ⟨rfl, rfl⟩ : acc = acc2 ∧ used = used2 :=
        ⟨congrArg Prod.fst hinj, congrArg Prod.snd hinj⟩
      exact ⟨h1, h2, by omega, h4⟩

/-- C5: whenever the distractor selection of `generateMultipleChoiceOptions`
returns (the loops draw random candidates, so termination is probabilistic
and a returning run is witnessed below), it returns exactly 3 strings that
are pairwise case-insensitively distinct, none case-insensitively equal to
the correct word; every distractor comes from the available pool — which is
the same-part-of-speech subset exactly when that subset has at least 3
members, and otherwise the whole level pool — or from the fixed generic
fallback list. -/
theorem selectDistractors_spec (correct : Word) (level : LevelSel)
    (fuel : Nat) (s1 s2 : List Nat) (ds : List String)
    (h : selectDistractors correct level fuel s1 s2 = some ds) :
    ds.length = 3 ∧
    (ds.map jsLowerStr).Nodup ∧
    (∀ d ∈ ds, jsLowerStr d ≠ jsLowerStr correct.word) ∧
    (∀ d ∈ ds, d ∈ (availableWordsFor correct level).map Word.word ∨
      d ∈ genericFallbackWords) ∧
    (3 ≤ (samePartOfSpeechPool correct level).length →
      availableWordsFor correct level = samePartOfSpeechPool correct level) := by
  unfold selectDistractors at h
  cases hp : pickLoop (availableWordsFor correct level) fuel s1 []
      [jsLowerStr correct.word] with
  | none =>
    rw [hp] at h
    exact Option.noConfusion h
  | some pr =>
    obtain ⟨acc, used⟩ := pr
    rw [hp] at h
    simp only at h
    cases hgl : genericLoop fuel s2 acc used with
    | none =>
      rw [hgl] at h
      exact Option.noConfusion h
    | some pr2 =>
      obtain ⟨acc2, used2⟩ := pr2
      rw [hgl] at h
      have hds : ds = acc2.take 3 := (Option.some.inj h).symm
      have hpick := pickLoop_sound (availableWordsFor correct level)
        (jsLowerStr correct.word)
        (fun a => a ∈ (availableWordsFor correct level).map Word.word ∨
          a ∈ genericFallbackWords)
        (fun w hw => Or.inl (List.mem_map_of_mem Word.word hw))
        fuel s1 [] [jsLowerStr correct.word] acc used hp
        (by simp) (by simp) (by simp) (by simp)
      obtain ⟨hu1, hu2, hu3, hu4, _⟩ := hpick
      have hgen := genericLoop_sound (jsLowerStr correct.word)
        (fun a => a ∈ (availableWordsFor correct level).map Word.word ∨
          a ∈ genericFallbackWords)
        (fun f hf => Or.inr hf)
        fuel s2 acc used acc2 used2 hgl hu1 hu2 hu3 hu4
      obtain ⟨hv1, hv2, hv3, hv4⟩ := hgen
      have hds2 : ds = acc2 := by
        rw [hds]
        exact List.take_of_length_le (by omega)
      subst hds2
      rw [hv1] at hv2
      have hnodup := List.nodup_cons.mp hv2
      refine ⟨hv3, hnodup.2, ?_, hv4, ?_⟩
      · intro d hd heq
        exact hnodup.1 (heq ▸ List.mem_map_of_mem jsLowerStr hd)
      · intro hge
        simp [availableWordsFor, hge]

/-- C5 witness: a concrete returning run — correct word "about" at level A1
has six same-part-of-speech alternatives, and the random stream 0,1,2 picks
three distinct ones. -/
theorem selectDistractors_spec_witness :
    (["above", "across", "after"] : List String).length = 3 ∧
    ((["above", "across", "after"] : List String).map jsLowerStr).Nodup :=
  let c : Word := ⟨"about", Level.A1, "on the subject of; concerning",
    "Tell me about your day.", "preposition"⟩
  let res := selectDistractors_spec c (LevelSel.level Level.A1) 5 [0, 1, 2] []
    ["above", "across", "after"] (by decide)
  ⟨res.1, res.2.1⟩

/-- C2 counterexample: the fallback branch of `startGame` can draw the store
word "answer" (index 17, level A1), and its hard-coded option list
`[word, 'example', 'answer', 'question']` then contains the target twice —
the options are neither unique nor contain the target exactly once. -/
theorem challengeOptions_duplicate_counterexample :
    ((startGameChallenge (Except.error (ThrownError.plain "OpenAI API Error"))
        (LevelSel.level Level.A1) 17 id).map
      (fun c => (c.target.word, c.options.count c.target.word))) =
      some ("answer", 2) ∧ (2 : Nat) ≠ 1 := by
  exact ⟨rfl, by decide⟩

/-- C2 (amended): every challenge produced by the primary path has exactly 4
options, pairwise case-insensitively distinct, containing the target exactly
once; a fallback challenge always has 4 options containing the target at
least once, but uniqueness and the exactly-once property hold only when the
target's lowercase surface form is not one of the hard-coded fillers
"example", "answer", "question" (the store word "answer" violates them). -/
theorem challengeOptions_invariant
    (correct : Word) (level : LevelSel) (fuel : Nat) (s1 s2 s3 : List Nat)
    (opts : List String) (w : Word) (shuffle : List String → List String)
    (hshuffle : ∀ xs : List String, (shuffle xs).Perm xs)
    (hprimary : generateMultipleChoiceOptions correct level fuel s1 s2 s3 =
      some opts) :
    (opts.length = 4 ∧
     (opts.map jsLowerStr).Nodup ∧
     opts.count correct.word = 1) ∧
    ((shuffle (fallbackOptionsBase w)).length = 4 ∧
     w.word ∈ shuffle (fallbackOptionsBase w) ∧
     (jsLowerStr w.word ∉ (["example", "answer", "question"] : List String) →
       ((shuffle (fallbackOptionsBase w)).map jsLowerStr).Nodup ∧
       (shuffle (fallbackOptionsBase w)).count w.word = 1)) := by
  constructor
  · unfold generateMultipleChoiceOptions at hprimary
    cases hsd : selectDistractors correct level fuel s1 s2 with
    | none =>
      rw [hsd] at hprimary
      exact Option.noConfusion hprimary
    | some ds =>
      rw [hsd] at hprimary
      have hopts : opts = fisherYates s3 (correct.word :: ds) :=
        (Option.some.inj hprimary).symm
      have hperm : opts.Perm (correct.word :: ds) := by
        rw [hopts]
        exact fisherYates_perm _ _
      obtain ⟨hlen, hnodup, hne, _, _⟩ :=
        selectDistractors_spec correct level fuel s1 s2 ds hsd
      have hnotmem_low : jsLowerStr correct.word ∉ ds.map jsLowerStr := by
        intro hmem
        obtain ⟨d, hd, hdeq⟩ := List.mem_map.mp hmem
        exact hne d hd hdeq
      have hnotmem : correct.word ∉ ds := by
        intro hmem
        exact hne correct.word hmem rfl
      refine ⟨?_, ?_, ?_⟩
      · rw [hperm.length_eq]
        simp [hlen]
      · have hmp : (opts.map jsLowerStr).Perm
            ((correct.word :: ds).map jsLowerStr) := hperm.map _
        rw [hmp.nodup_iff]
        exact List.nodup_cons.mpr ⟨hnotmem_low, hnodup⟩
      · rw [hperm.count_eq]
        rw [List.count_cons_self, List.count_eq_zero.mpr hnotmem]
  · have hperm := hshuffle (fallbackOptionsBase w)
    refine ⟨hperm.length_eq.trans rfl, hperm.mem_iff.mpr (by
      simp [fallbackOptionsBase]), ?_⟩
    intro hno
    have hlow : (fallbackOptionsBase w).map jsLowerStr =
        [jsLowerStr w.word, "example", "answer", "question"] := rfl
    have hnm : w.word ∉ (["example", "answer", "question"] : List String) := by
      intro hmem
      apply hno
      simp only [List.mem_cons, List.not_mem_nil, or_false] at hmem
      rcases hmem with h | h | h <;> rw [h] <;> decide
    constructor
    · rw [(hperm.map jsLowerStr).nodup_iff, hlow]
      refine List.nodup_cons.mpr ⟨by simpa using hno, by decide⟩
    · rw [hperm.count_eq]
      show ([w.word, "example", "answer", "question"].count w.word) = 1
      rw [show ([w.word, "example", "answer", "question"] : List String) =
        w.word :: ["example", "answer", "question"] from rfl]
      rw [List.count_cons_self, List.count_eq_zero.mpr hnm]

/-- C2 witness: a concrete primary-path run for the word "about" at level A1
produces 4 options containing the correct word exactly once. -/
theorem challengeOptions_invariant_witness :
    (["above", "across", "after", "about"] : List String).count "about" = 1 :=
  ((challengeOptions_invariant
      ⟨"about", Level.A1, "on the subject of; concerning",
        "Tell me about your day.", "preposition"⟩
      (LevelSel.level Level.A1) 5 [0, 1, 2] [] [0, 0, 0]
      ["above", "across", "after", "about"]
      ⟨"about", Level.A1, "on the subject of; concerning",
        "Tell me about your day.", "preposition"⟩
      id (fun xs => List.Perm.refl xs) (by decide)).1).2.2
